import Mathlib

/-!
Verification development for the `dart_bert_tokenizer` repository.

The repository's source (under scrutiny here) is the benchmark-fixture
generator `scripts/generate_hf_benchmark_data.py`: it loads a BERT WordPiece
tokenizer, runs it over fixed catalogs of sample strings and serializes the
resulting encodings to a JSON document and to Dart test-case declarations.

The tokenizer itself (Normalizer, PreTokenizer, WordPieceModel, Encoder) is
not part of the given sources; the script only calls it. Its definitions
below are therefore modelled from the specification's component design, and
each such definition says so in its doc comment. The harness (`main`,
`_generate_dart_code`, the four test catalogs, the two exit checks) is
embedded directly from the Python source.
-/

/-- Configuration of the normalizer, as passed to the tokenizer constructor
in the script (`lowercase=True, strip_accents=True`). -/
structure NormCfg where
  lowercase : Bool
  stripAccents : Bool
deriving DecidableEq, Repr

/-- Modelled from the spec: a NormalizedChar is a character in normalized
text plus its originating offset range in the raw input. -/
structure NChar where
  c : Char
  s : Nat
  e : Nat
deriving DecidableEq, Repr

/-- Modelled from the spec: a Token is a surface string, an is-continuation
flag, and its offset span in the original input ((0,0) for special tokens). -/
structure Token where
  text : String
  isContinuation : Bool
  s : Nat
  e : Nat
deriving DecidableEq, Repr

/-- Modelled from the spec: an Encoding is an ordered token sequence plus
parallel arrays ids, typeIds, attentionMask and offsets. -/
structure Encoding where
  tokens : List String
  ids : List Nat
  typeIds : List Nat
  attentionMask : List Nat
  offsets : List (Nat × Nat)
deriving DecidableEq, Repr

/-- Whitespace predicate used by normalization: space, tab, newline,
carriage return (the whitespace characters exercised by the catalogs). -/
def isWs (c : Char) : Bool :=
  c = ' ' || c = '\t' || c = '\n' || c.val = 13 || c.val = 11 || c.val = 12

/-- Control characters (and NUL) to be removed by normalization; whitespace
control characters are handled by `isWs` first. -/
def isCtrl (c : Char) : Bool :=
  c.val = 0 || (c.val < 32 && !(isWs c)) || c.val = 127

/-- Modelled from the spec: accent stripping is NFD decomposition followed
by combining-mark removal, with characters lacking a decomposition kept
unchanged. Modelled as a finite table over the precomposed Latin characters
appearing in the harness catalogs; all other characters are unchanged. -/
def stripAccentChar (c : Char) : Char :=
  if c = 'é' || c = 'è' || c = 'ê' then 'e'
  else if c = 'ï' || c = 'í' then 'i'
  else if c = 'ü' || c = 'ù' then 'u'
  else if c = 'ã' || c = 'á' || c = 'à' then 'a'
  else if c = 'ñ' then 'n'
  else if c = 'ö' || c = 'ó' then 'o'
  else c

/-- Modelled from the spec (4.1): per-character normalization pass carrying
the source index: control characters are dropped, whitespace becomes an
ASCII space, then optional lowercasing and accent stripping are applied. -/
def normChars (cfg : NormCfg) : Nat → List Char → List NChar
  | _, [] => []
  | i, c :: rest =>
    if isCtrl c then normChars cfg (i + 1) rest
    else
      let c1 := if isWs c then ' ' else c
      let c2 := if cfg.lowercase then c1.toLower else c1
      let c3 := if cfg.stripAccents then stripAccentChar c2 else c2
      ⟨c3, i, i + 1⟩ :: normChars cfg (i + 1) rest

/-- Modelled from the spec (4.1): `normalize` is total on any text and
retains, for every output character, the offsets it originated from. -/
def normalizeText (cfg : NormCfg) (text : String) : List NChar :=
  normChars cfg 0 text.data

/-- ASCII punctuation predicate used by the pre-tokenizer (Unicode
punctuation restricted to the ASCII of the reference algorithm). -/
def isPunct (c : Char) : Bool :=
  (33 ≤ c.val && c.val ≤ 47) || (58 ≤ c.val && c.val ≤ 64) ||
  (91 ≤ c.val && c.val ≤ 96) || (123 ≤ c.val && c.val ≤ 126)

/-- CJK unified ideograph test, per the reference tokenizer's ranges. -/
def isCJK (c : Char) : Bool :=
  (0x4E00 ≤ c.val && c.val ≤ 0x9FFF) || (0x3400 ≤ c.val && c.val ≤ 0x4DBF) ||
  (0xF900 ≤ c.val && c.val ≤ 0xFAFF)

/-- Modelled from the spec (4.2): split normalized text into chunks; spaces
are boundaries and are dropped, each punctuation or CJK character is its own
chunk, maximal runs of other characters are word chunks. The accumulator
holds the current word chunk in reverse. -/
def preTok (acc : List NChar) : List NChar → List (List NChar)
  | [] => if acc.isEmpty then [] else [acc.reverse]
  | nc :: rest =>
    if nc.c = ' ' then
      if acc.isEmpty then preTok [] rest else acc.reverse :: preTok [] rest
    else if isPunct nc.c || isCJK nc.c then
      if acc.isEmpty then [nc] :: preTok [] rest
      else acc.reverse :: [nc] :: preTok [] rest
    else preTok (nc :: acc) rest

/-- Modelled from the spec (4.2): the pre-tokenizer over normalized text. -/
def preTokenize (ncs : List NChar) : List (List NChar) :=
  preTok [] ncs

/-- Modelled from the spec (4.3): default per-word character budget. -/
def maxInputCharsPerWord : Nat := 100

/-- Original-input start offset of the chunk character at index `i`. -/
def ncStart (ch : List NChar) (i : Nat) : Nat :=
  match ch.drop i with
  | [] => 0
  | nc :: _ => nc.s

/-- Original-input end offset of the chunk character at index `i - 1`
(i.e. the end of the sub-span that stops before index `i`). -/
def ncEnd (ch : List NChar) (i : Nat) : Nat :=
  match (ch.take i).getLast? with
  | none => 0
  | some nc => nc.e

/-- Surface substring of a chunk's characters from `st` (inclusive) to `en`
(exclusive). -/
def pieceStr (cs : List Char) (st en : Nat) : String :=
  String.mk ((cs.drop st).take (en - st))

/-- Modelled from the spec (4.3 step 2a): scan the candidate end downward
from the given bound to `cursor + 1`, returning the longest substring
starting at `cursor` that exists in the vocabulary (with the `##`
continuation marker when `cursor > 0`), together with its end index. -/
def findLongest (v : List String) (cs : List Char) (cursor : Nat) : Nat → Option (String × Nat)
  | 0 => none
  | e + 1 =>
    if cursor < e + 1 then
      let sub := pieceStr cs cursor (e + 1)
      let cand := if 0 < cursor then "##" ++ sub else sub
      if v.contains cand then some (cand, e + 1) else findLongest v cs cursor e
    else none

/-- Token emitted for the sub-span `[cursor, en)` of a chunk. -/
def mkTok (ch : List NChar) (cursor en : Nat) (cand : String) : Token :=
  ⟨cand, decide (0 < cursor), ncStart ch cursor, ncEnd ch en⟩

/-- Modelled from the spec (4.3 step 2): the greedy longest-match-first
loop. `none` signals that some position had no vocabulary match of any
length, in which case the whole chunk falls back to `[UNK]`. The fuel
argument bounds the number of iterations; each iteration advances the
cursor by at least one, so `ch.length` fuel always suffices. -/
def wpGo (v : List String) (ch : List NChar) : Nat → Nat → Option (List Token)
  | 0, cursor => if ch.length ≤ cursor then some [] else none
  | fuel + 1, cursor =>
    if ch.length ≤ cursor then some []
    else
      match findLongest v (ch.map NChar.c) cursor ch.length with
      | none => none
      | some (cand, en) => (wpGo v ch fuel en).map (fun ts => mkTok ch cursor en cand :: ts)

/-- The single `[UNK]` fallback token spanning a whole chunk. -/
def unkToken (ch : List NChar) : Token :=
  ⟨"[UNK]", false, ncStart ch 0, ncEnd ch ch.length⟩

/-- Modelled from the spec (4.3): WordPiece segmentation of one chunk:
oversized chunks and chunks with no viable segmentation become a single
`[UNK]` token spanning the chunk. -/
def tokenizeChunk (v : List String) (ch : List NChar) : List Token :=
  if maxInputCharsPerWord < ch.length then [unkToken ch]
  else
    match wpGo v ch ch.length 0 with
    | none => [unkToken ch]
    | some ts => ts

/-- Modelled from the spec (4.4): normalize, pre-tokenize and WordPiece-
tokenize one input sequence. -/
def seqTokens (v : List String) (cfg : NormCfg) (text : String) : List Token :=
  ((preTokenize (normalizeText cfg text)).map (tokenizeChunk v)).flatten

/-- The injected classification token, with empty offset span. -/
def clsTok : Token := ⟨"[CLS]", false, 0, 0⟩

/-- The injected separator token, with empty offset span. -/
def sepTok : Token := ⟨"[SEP]", false, 0, 0⟩

/-- Modelled from the spec (3, 6): a vocabulary is the ordered list of its
tokens, the line number being the id; id lookup is positional. -/
def tokId (v : List String) (t : Token) : Nat :=
  v.indexOf t.text

/-- Modelled from the spec (4.4): single-sequence encoding `[CLS]` tokens(A)
`[SEP]`, with all-zero typeIds, all-one attentionMask, positional ids, and
(0,0) offsets on the special tokens. -/
def encode (v : List String) (cfg : NormCfg) (a : String) : Encoding :=
  let all := clsTok :: seqTokens v cfg a ++ [sepTok]
  { tokens := all.map Token.text
  , ids := all.map (tokId v)
  , typeIds := all.map (fun _ => 0)
  , attentionMask := all.map (fun _ => 1)
  , offsets := all.map (fun t => (t.s, t.e)) }

/-- Modelled from the spec (4.4): pair encoding `[CLS]` tokens(A) `[SEP]`
tokens(B) `[SEP]`, typeIds 0 over the first segment and 1 over the second. -/
def encodePair (v : List String) (cfg : NormCfg) (a b : String) : Encoding :=
  let partA := clsTok :: seqTokens v cfg a ++ [sepTok]
  let partB := seqTokens v cfg b ++ [sepTok]
  { tokens := (partA ++ partB).map Token.text
  , ids := (partA ++ partB).map (tokId v)
  , typeIds := partA.map (fun _ => 0) ++ partB.map (fun _ => 1)
  , attentionMask := (partA ++ partB).map (fun _ => 1)
  , offsets := (partA ++ partB).map (fun t => (t.s, t.e)) }

/-- JSON-like value appearing in a serialized benchmark record. -/
inductive JVal where
  | s : String → JVal
  | ns : List Nat → JVal
  | ss : List String → JVal
  | ps : List (Nat × Nat) → JVal
deriving DecidableEq, Repr

/-- A serialized record: an ordered association list of fields, embedding
the Python `dict` literals the script builds per test case. -/
abbrev JRec := List (String × JVal)

/-- Embeds the dict built for each single-encoding test case
(`generate_hf_benchmark_data.py` lines 149-157). -/
def singleRecord (nm tx : String) (e : Encoding) : JRec :=
  [("name", .s nm), ("input", .s tx), ("tokens", .ss e.tokens),
   ("ids", .ns e.ids), ("type_ids", .ns e.typeIds),
   ("attention_mask", .ns e.attentionMask), ("offsets", .ps e.offsets)]

/-- Embeds the dict built for each pair-encoding test case
(`generate_hf_benchmark_data.py` lines 165-174). -/
def pairRecord (nm ta tb : String) (e : Encoding) : JRec :=
  [("name", .s nm), ("input_a", .s ta), ("input_b", .s tb),
   ("tokens", .ss e.tokens), ("ids", .ns e.ids), ("type_ids", .ns e.typeIds),
   ("attention_mask", .ns e.attentionMask), ("offsets", .ps e.offsets)]

/-- Embeds the dict built for each edge-case test
(`generate_hf_benchmark_data.py` lines 181-189). -/
def edgeRecord (nm tx : String) (e : Encoding) : JRec :=
  [("name", .s nm), ("input", .s tx), ("tokens", .ss e.tokens),
   ("ids", .ns e.ids), ("type_ids", .ns e.typeIds),
   ("attention_mask", .ns e.attentionMask), ("offsets", .ps e.offsets)]

/-- Embeds the dict built for each offset test
(`generate_hf_benchmark_data.py` lines 196-202): only name, input, tokens,
ids and offsets are serialized for this catalog. -/
def offsetRecord (nm tx : String) (e : Encoding) : JRec :=
  [("name", .s nm), ("input", .s tx), ("tokens", .ss e.tokens),
   ("ids", .ns e.ids), ("offsets", .ps e.offsets)]

/-- The `SINGLE_ENCODING_TESTS` catalog, transcribed from the script. -/
def SINGLE_ENCODING_TESTS : List (String × String) :=
  [("Simple greeting", "Hello, world!"),
   ("Classic pangram", "The quick brown fox jumps over the lazy dog."),
   ("Subword tokenization", "tokenization"),
   ("Complex subword", "unbelievable"),
   ("Accented text (café)", "café"),
   ("Accented text (naïve)", "naïve"),
   ("Accented text (résumé)", "résumé"),
   ("Numbers", "12345"),
   ("Multiple punctuation", "!!??"),
   ("BERT model name", "BERT is a transformer-based model."),
   ("NLP text", "I love NLP!"),
   ("Contraction (I'm)", "I'm happy"),
   ("Contraction (don't)", "don't"),
   ("Hyphenated word", "state-of-the-art"),
   ("Machine learning sentence", "Machine learning is amazing!"),
   ("Subword (preprocessing)", "preprocessing"),
   ("Subword (playing)", "playing"),
   ("Subword (transformers)", "transformers"),
   ("Question sentence", "Hello, how are you?"),
   ("Ellipsis in text", "test...test"),
   ("Year in sentence", "The year is 2024."),
   ("Framework names", "TensorFlow and PyTorch are popular."),
   ("Long NLP sentence", "Natural language processing (NLP) is a subfield of linguistics, computer science, and artificial intelligence."),
   ("Mixed symbols", "Hello @user #hashtag $100 50%"),
   ("Email in sentence", "Email: test@example.com"),
   ("Complex URL", "https://www.example.com/path?query=value"),
   ("German umlaut (Zürich)", "Zürich"),
   ("Portuguese (São Paulo)", "São Paulo"),
   ("German umlaut (München)", "München"),
   ("Multiple accented words", "naïve café résumé"),
   ("French accent (fiancée)", "fiancée"),
   ("Spanish tilde (piñata)", "piñata"),
   ("Very long word 1", "antidisestablishmentarianism"),
   ("Very long word 2", "supercalifragilisticexpialidocious"),
   ("Very long word 3", "internationalization"),
   ("Scientific term", "deoxyribonucleic"),
   ("Numbers in sentence", "I have 3 cats and 2 dogs."),
   ("Temperature with degree", "The temperature is 72.5°F."),
   ("Date format", "2023-12-25"),
   ("Time format", "10:30 AM"),
   ("Formatted number", "1,234,567.89"),
   ("Contraction (won't)", "won't"),
   ("Contraction (it's)", "it's"),
   ("Contraction (they're)", "they're"),
   ("Contraction (we've)", "we've"),
   ("Hyphenated (well-known)", "well-known"),
   ("Hyphenated (self-driving)", "self-driving"),
   ("Hyphenated (twenty-first)", "twenty-first"),
   ("Exclamation with question", "Really?!"),
   ("Trailing ellipsis", "Wait..."),
   ("Multiple exclamations", "Hello!!!"),
   ("Mixed punctuation", "What?!?!"),
   ("Double quoted", "\"Hello\""),
   ("Single quoted", "'Hello'"),
   ("Quote in sentence", "He said 'hello'"),
   ("Underscore identifier", "function_name"),
   ("camelCase", "camelCase"),
   ("PascalCase", "PascalCase"),
   ("snake_case", "snake_case"),
   ("SCREAMING_CASE", "SCREAMING_CASE"),
   ("Greek letter beta", "β-testing"),
   ("Greek letter alpha", "α-version"),
   ("Greek letter mu", "µ-controller"),
   ("Repeated character", String.mk (List.replicate 50 'a')),
   ("Repeated word", String.join (List.replicate 10 "test ")),
   ("Punctuation only", ".,!?;:")]

/-- The `PAIR_ENCODING_TESTS` catalog, transcribed from the script. -/
def PAIR_ENCODING_TESTS : List (String × String × String) :=
  [("Simple QA pair", "What is NLP?", "Natural language processing."),
   ("Question-Answer pair", "Who created BERT?", "Google AI researchers."),
   ("Short pair", "Hello", "World")]

/-- The `EDGE_CASE_TESTS` catalog, transcribed from the script. -/
def EDGE_CASE_TESTS : List (String × String) :=
  [("Empty string", ""),
   ("Whitespace only", "   "),
   ("Tab and newline", "\t\n"),
   ("Single character", "a"),
   ("Single punctuation", "."),
   ("Multiple spaces between words", "hello    world"),
   ("All caps", "HELLO WORLD"),
   ("Mixed case", "HeLLo WoRLd"),
   ("URL-like text", "https://example.com"),
   ("Email-like text", "test@example.com"),
   ("Currency symbols", "$100"),
   ("Percentage", "50%")]

/-- The `OFFSET_TESTS` catalog, transcribed from the script. -/
def OFFSET_TESTS : List (String × String) :=
  [("Simple word offsets", "hello"),
   ("Two words offsets", "hello world"),
   ("Subword offsets", "tokenization")]

/-- The normalizer configuration the script passes to the one
`BertWordPieceTokenizer` it constructs: `lowercase=True, strip_accents=True`. -/
def tokenizerCfg : NormCfg := ⟨true, true⟩

/-- The four result lists `main` accumulates before serializing them to
`hf_benchmark_data.json`. -/
structure Results where
  singleEncoding : List JRec
  pairEncoding : List JRec
  edgeCases : List JRec
  offsetTests : List JRec
deriving DecidableEq, Repr

/-- Embeds the four encoding loops of `main`: each catalog entry is encoded
with the one tokenizer instance and appended, in catalog order, to the
corresponding results list. -/
def runHarness (v : List String) : Results :=
  { singleEncoding :=
      SINGLE_ENCODING_TESTS.map (fun p => singleRecord p.1 p.2 (encode v tokenizerCfg p.2))
  , pairEncoding :=
      PAIR_ENCODING_TESTS.map (fun p => pairRecord p.1 p.2.1 p.2.2 (encodePair v tokenizerCfg p.2.1 p.2.2))
  , edgeCases :=
      EDGE_CASE_TESTS.map (fun p => edgeRecord p.1 p.2 (encode v tokenizerCfg p.2))
  , offsetTests :=
      OFFSET_TESTS.map (fun p => offsetRecord p.1 p.2 (encode v tokenizerCfg p.2)) }

/-- Environment the script starts in: whether the `tokenizers` package can
be imported, whether `vocab.txt` exists in the current directory, and the
vocabulary lines it holds when it does. -/
structure World where
  tokenizersInstalled : Bool
  vocabExists : Bool
  vocab : List String

/-- Observable outcome of one script run: the exit code if the script
exited early, how many tokenizer instances were constructed, whether the
output file `hf_benchmark_data.json` was written, and the results when the
run completed. -/
structure RunOutcome where
  exitCode : Option Nat
  tokenizersConstructed : Nat
  outputWritten : Bool
  results : Option Results

/-- Embeds the script's top level: the import guard (`sys.exit(1)` when the
`tokenizers` package is missing) runs first, then `main` checks that
`vocab.txt` exists (`sys.exit(1)` otherwise) before constructing the single
tokenizer, running the four catalogs and writing the output file. -/
def scriptRun (w : World) : RunOutcome :=
  if !w.tokenizersInstalled then ⟨some 1, 0, false, none⟩
  else if !w.vocabExists then ⟨some 1, 0, false, none⟩
  else ⟨none, 1, true, some (runHarness w.vocab)⟩

/-- Field access on a record, embedding Python's `r[key]` on the dicts the
script builds (all accesses in the script hit present keys). -/
def jget (r : JRec) (k : String) : JVal :=
  match r.lookup k with
  | some v => v
  | none => .s ""

/-- Embeds the `SingleEncodingTestCase(...)` declaration `_generate_dart_code`
emits per single-encoding record (lines 222-230): name, input, tokens, ids,
typeIds and attentionMask — no offsets field is emitted. -/
def dartSingleCase (r : JRec) : JRec :=
  [("name", jget r "name"), ("input", jget r "input"),
   ("expectedTokens", jget r "tokens"), ("expectedIds", jget r "ids"),
   ("expectedTypeIds", jget r "type_ids"),
   ("expectedAttentionMask", jget r "attention_mask")]

/-- Embeds the `PairEncodingTestCase(...)` declaration emitted per pair
record (lines 236-244): no attention-mask and no offsets field. -/
def dartPairCase (r : JRec) : JRec :=
  [("name", jget r "name"), ("inputA", jget r "input_a"),
   ("inputB", jget r "input_b"), ("expectedTokens", jget r "tokens"),
   ("expectedIds", jget r "ids"), ("expectedTypeIds", jget r "type_ids")]

/-- Embeds the `EdgeCaseTestCase(...)` declaration emitted per edge-case
record (lines 250-256): only name, input, tokens and ids. -/
def dartEdgeCase (r : JRec) : JRec :=
  [("name", jget r "name"), ("input", jget r "input"),
   ("expectedTokens", jget r "tokens"), ("expectedIds", jget r "ids")]

/-- Embeds the `OffsetTestCase(...)` declaration emitted per offset record
(lines 262-268): only name, input and offsets. -/
def dartOffsetCase (r : JRec) : JRec :=
  [("name", jget r "name"), ("input", jget r "input"),
   ("expectedOffsets", jget r "offsets")]

/-- Embeds `_generate_dart_code`: the four lists of source-level test-case
declarations generated from the results. -/
def dartCode (res : Results) : List JRec × List JRec × List JRec × List JRec :=
  (res.singleEncoding.map dartSingleCase, res.pairEncoding.map dartPairCase,
   res.edgeCases.map dartEdgeCase, res.offsetTests.map dartOffsetCase)

/-- Field names of a record, in serialization order. -/
def recKeys (r : JRec) : List String := r.map Prod.fst

/-- A record contains a field of the given name. -/
def hasKey (r : JRec) (k : String) : Prop := k ∈ recKeys r

instance (r : JRec) (k : String) : Decidable (hasKey r k) := by
  unfold hasKey
  infer_instance

/-- Small vocabulary used to instantiate witnesses; line number = id, with
the reserved tokens of the data model present. -/
def demoVocab : List String :=
  ["[PAD]", "[UNK]", "[CLS]", "[SEP]", "[MASK]", "hello", "world", "un",
   "##able", "unable", "test", "##ing"]

/-- The single chunk the pre-tokenizer produces for the input `"unable"`
under the script's configuration. -/
def unableChunk : List NChar :=
  [⟨'u', 0, 1⟩, ⟨'n', 1, 2⟩, ⟨'a', 2, 3⟩, ⟨'b', 3, 4⟩, ⟨'l', 4, 5⟩, ⟨'e', 5, 6⟩]

/-- An oversized chunk (101 characters) used to exercise the
`maxInputCharsPerWord` fallback. -/
def bigChunk : List NChar :=
  (List.range 101).map (fun i => ⟨'a', i, i + 1⟩)

theorem recKeys_singleRecord (nm tx : String) (e : Encoding) :
    recKeys (singleRecord nm tx e)
      = ["name", "input", "tokens", "ids", "type_ids", "attention_mask", "offsets"] := rfl

theorem recKeys_pairRecord (nm ta tb : String) (e : Encoding) :
    recKeys (pairRecord nm ta tb e)
      = ["name", "input_a", "input_b", "tokens", "ids", "type_ids", "attention_mask", "offsets"] := rfl

theorem recKeys_edgeRecord (nm tx : String) (e : Encoding) :
    recKeys (edgeRecord nm tx e)
      = ["name", "input", "tokens", "ids", "type_ids", "attention_mask", "offsets"] := rfl

theorem recKeys_offsetRecord (nm tx : String) (e : Encoding) :
    recKeys (offsetRecord nm tx e)
      = ["name", "input", "tokens", "ids", "offsets"] := rfl

theorem recKeys_dartSingleCase (r : JRec) :
    recKeys (dartSingleCase r)
      = ["name", "input", "expectedTokens", "expectedIds", "expectedTypeIds",
         "expectedAttentionMask"] := rfl

theorem recKeys_dartPairCase (r : JRec) :
    recKeys (dartPairCase r)
      = ["name", "inputA", "inputB", "expectedTokens", "expectedIds", "expectedTypeIds"] := rfl

theorem recKeys_dartEdgeCase (r : JRec) :
    recKeys (dartEdgeCase r)
      = ["name", "input", "expectedTokens", "expectedIds"] := rfl

theorem recKeys_dartOffsetCase (r : JRec) :
    recKeys (dartOffsetCase r)
      = ["name", "input", "expectedOffsets"] := rfl

theorem jget_singleRecord_name (nm tx : String) (e : Encoding) :
    jget (singleRecord nm tx e) "name" = .s nm := rfl

theorem jget_pairRecord_name (nm ta tb : String) (e : Encoding) :
    jget (pairRecord nm ta tb e) "name" = .s nm := rfl

theorem jget_edgeRecord_name (nm tx : String) (e : Encoding) :
    jget (edgeRecord nm tx e) "name" = .s nm := rfl

theorem jget_offsetRecord_name (nm tx : String) (e : Encoding) :
    jget (offsetRecord nm tx e) "name" = .s nm := rfl

theorem wpGo_done (v : List String) (ch : List NChar) (fuel cursor : Nat)
    (h : ch.length ≤ cursor) : wpGo v ch fuel cursor = some [] := by
  cases fuel <;> simp [wpGo, h]

theorem wpGo_cons (v : List String) (ch : List NChar) (fuel cursor : Nat)
    (h : cursor < ch.length) :
    wpGo v ch (fuel + 1) cursor = none ∨
      ∃ t ts, wpGo v ch (fuel + 1) cursor = some (t :: ts) := by
  simp only [wpGo]
  rw [if_neg (by omega : ¬ ch.length ≤ cursor)]
  cases hf : findLongest v (ch.map NChar.c) cursor ch.length with
  | none => exact Or.inl rfl
  | some p =>
    cases p with
    | mk cand en =>
      cases hg : wpGo v ch fuel en with
      | none => exact Or.inl (by simp [hg])
      | some ts => exact Or.inr ⟨mkTok ch cursor en cand, ts, by simp [hg]⟩

theorem wpGo_whole (v : List String) (ch : List NChar) (n : Nat)
    (hn : ch.length = n + 1)
    (hc : v.contains (String.mk (ch.map NChar.c)) = true) :
    wpGo v ch ch.length 0 = some [mkTok ch 0 ch.length (String.mk (ch.map NChar.c))] := by
  have hcs : (ch.map NChar.c).length = n + 1 := by simpa using hn
  have htake : (ch.map NChar.c).take (n + 1 - 0) = ch.map NChar.c := by
    rw [Nat.sub_zero, ← hcs]
    exact List.take_length _
  have hfl : findLongest v (ch.map NChar.c) 0 (n + 1)
      = some (String.mk (ch.map NChar.c), n + 1) := by
    rw [findLongest]
    rw [if_pos (Nat.succ_pos n)]
    simp only [pieceStr, List.drop_zero, htake, Nat.lt_irrefl, if_false]
    rw [hc]
    rfl
  rw [hn]
  simp only [wpGo]
  rw [if_neg (by omega : ¬ ch.length ≤ 0)]
  rw [hn]
  simp only [hfl]
  rw [wpGo_done v ch n (n + 1) (le_of_eq hn)]
  rfl

/-- C2: if `vocab.txt` does not exist when the script starts, the run
terminates with exit status 1 before constructing the tokenizer and before
any encode call, and no output file is produced. -/
theorem c2_missing_vocab_is_fatal (w : World) (h : w.vocabExists = false) :
    (scriptRun w).exitCode = some 1 ∧
    (scriptRun w).tokenizersConstructed = 0 ∧
    (scriptRun w).outputWritten = false ∧
    (scriptRun w).results = none := by
  cases hw : w.tokenizersInstalled <;> simp [scriptRun, h, hw]

/-- Witness for `c2_missing_vocab_is_fatal` at the concrete world where the
package is installed but `vocab.txt` is absent. -/
theorem c2_missing_vocab_is_fatal_witness :
    (World.mk true false []).vocabExists = false ∧
    ((scriptRun (World.mk true false [])).exitCode = some 1 ∧
     (scriptRun (World.mk true false [])).tokenizersConstructed = 0 ∧
     (scriptRun (World.mk true false [])).outputWritten = false ∧
     (scriptRun (World.mk true false [])).results = none) :=
  ⟨rfl, c2_missing_vocab_is_fatal (World.mk true false []) rfl⟩

/-- C3: the script's only abnormal-termination paths are the two
missing-file checks (missing `tokenizers` package, missing `vocab.txt`),
each exiting with status 1; the run completes normally exactly when both
checks pass. -/
theorem c3_only_two_exit_checks (w : World) :
    ((scriptRun w).exitCode = none ∨ (scriptRun w).exitCode = some 1) ∧
    ((scriptRun w).exitCode = some 1 ↔
      (w.tokenizersInstalled = false ∨ w.vocabExists = false)) ∧
    ((scriptRun w).exitCode = none ↔
      (w.tokenizersInstalled = true ∧ w.vocabExists = true)) := by
  cases w with
  | mk ti ve vo => cases ti <;> cases ve <;> simp [scriptRun]

/-- C5: encode and encodePair are deterministic: two calls on identical
vocabulary, configuration and input yield Encodings that agree on every
parallel array. -/
theorem c5_encode_deterministic (v : List String) (cfg : NormCfg) (a b : String)
    (e1 e2 p1 p2 : Encoding)
    (h1 : e1 = encode v cfg a) (h2 : e2 = encode v cfg a)
    (q1 : p1 = encodePair v cfg a b) (q2 : p2 = encodePair v cfg a b) :
    (e1.tokens = e2.tokens ∧ e1.ids = e2.ids ∧ e1.typeIds = e2.typeIds ∧
     e1.attentionMask = e2.attentionMask ∧ e1.offsets = e2.offsets) ∧ p1 = p2 := by
  subst h1; subst h2; subst q1; subst q2
  exact ⟨⟨rfl, rfl, rfl, rfl, rfl⟩, rfl⟩

/-- Witness for `c5_encode_deterministic` at a concrete vocabulary and
input pair. -/
theorem c5_encode_deterministic_witness :
    ((encode demoVocab tokenizerCfg "hello").tokens
        = (encode demoVocab tokenizerCfg "hello").tokens ∧
     (encode demoVocab tokenizerCfg "hello").ids
        = (encode demoVocab tokenizerCfg "hello").ids ∧
     (encode demoVocab tokenizerCfg "hello").typeIds
        = (encode demoVocab tokenizerCfg "hello").typeIds ∧
     (encode demoVocab tokenizerCfg "hello").attentionMask
        = (encode demoVocab tokenizerCfg "hello").attentionMask ∧
     (encode demoVocab tokenizerCfg "hello").offsets
        = (encode demoVocab tokenizerCfg "hello").offsets) ∧
    encodePair demoVocab tokenizerCfg "hello" "world"
      = encodePair demoVocab tokenizerCfg "hello" "world" :=
  c5_encode_deterministic demoVocab tokenizerCfg "hello" "world"
    (encode demoVocab tokenizerCfg "hello") (encode demoVocab tokenizerCfg "hello")
    (encodePair demoVocab tokenizerCfg "hello" "world")
    (encodePair demoVocab tokenizerCfg "hello" "world") rfl rfl rfl rfl

/-- C6: for every input (single or pair), the Encoding's parallel arrays
tokens, ids, typeIds, attentionMask and offsets all have the same length. -/
theorem c6_parallel_array_lengths (v : List String) (cfg : NormCfg) (a b : String) :
    ((encode v cfg a).tokens.length = (encode v cfg a).ids.length ∧
     (encode v cfg a).ids.length = (encode v cfg a).typeIds.length ∧
     (encode v cfg a).typeIds.length = (encode v cfg a).attentionMask.length ∧
     (encode v cfg a).attentionMask.length = (encode v cfg a).offsets.length) ∧
    ((encodePair v cfg a b).tokens.length = (encodePair v cfg a b).ids.length ∧
     (encodePair v cfg a b).ids.length = (encodePair v cfg a b).typeIds.length ∧
     (encodePair v cfg a b).typeIds.length = (encodePair v cfg a b).attentionMask.length ∧
     (encodePair v cfg a b).attentionMask.length = (encodePair v cfg a b).offsets.length) := by
  simp [encode, encodePair]

/-- C7: encoding the empty string yields exactly the token sequence
[CLS], [SEP] with offsets (0,0), (0,0), for any vocabulary and
configuration. -/
theorem c7_empty_string (v : List String) (cfg : NormCfg) :
    (encode v cfg "").tokens = ["[CLS]", "[SEP]"] ∧
    (encode v cfg "").offsets = [(0, 0), (0, 0)] :=
  ⟨rfl, rfl⟩

/-- C8: WordPiece segmentation is greedy longest-match-first: for any
vocabulary containing the whole word "unable", tokenizing the chunk
"unable" yields the single token "unable" (and in particular not the
subword split "un", "##able"), because the longest substring starting at
the cursor that exists in the vocabulary is chosen first. -/
theorem c8_wordpiece_greedy_longest_match (v : List String) (h : "unable" ∈ v) :
    (seqTokens v tokenizerCfg "unable").map Token.text = ["unable"] ∧
    (seqTokens v tokenizerCfg "unable").map Token.text ≠ ["un", "##able"] := by
  have hc : v.contains "unable" = true := by simpa using h
  have hc' : v.contains (String.mk (unableChunk.map NChar.c)) = true := hc
  have h1 : preTokenize (normalizeText tokenizerCfg "unable") = [unableChunk] := by decide
  have h2 := wpGo_whole v unableChunk 5 (by decide) hc'
  have h3 : tokenizeChunk v unableChunk
      = [mkTok unableChunk 0 unableChunk.length (String.mk (unableChunk.map NChar.c))] := by
    unfold tokenizeChunk
    rw [if_neg (by decide : ¬ maxInputCharsPerWord < unableChunk.length)]
    rw [h2]
  have hmain : (seqTokens v tokenizerCfg "unable").map Token.text = ["unable"] := by
    unfold seqTokens
    rw [h1]
    simp [h3, mkTok]
    rfl
  exact ⟨hmain, by rw [hmain]; decide⟩

/-- Witness for `c8_wordpiece_greedy_longest_match` at the vocabulary
consisting exactly of "un", "##able" and "unable". -/
theorem c8_wordpiece_greedy_longest_match_witness :
    "unable" ∈ ["un", "##able", "unable"] ∧
    ((seqTokens ["un", "##able", "unable"] tokenizerCfg "unable").map Token.text
        = ["unable"] ∧
     (seqTokens ["un", "##able", "unable"] tokenizerCfg "unable").map Token.text
        ≠ ["un", "##able"]) :=
  ⟨by decide, c8_wordpiece_greedy_longest_match ["un", "##able", "unable"] (by decide)⟩

/-- C9: once the vocabulary is loaded the tokenizer is total: the WordPiece
stage always emits at least one token for a nonempty chunk, an oversized
chunk (longer than maxInputCharsPerWord) yields exactly the single [UNK]
fallback spanning the chunk, and encode always yields a nonempty token
sequence. -/
theorem c9_total_unk_fallback (v : List String) (cfg : NormCfg) (a : String)
    (ch : List NChar) (h : ch ≠ []) :
    tokenizeChunk v ch ≠ [] ∧
    (maxInputCharsPerWord < ch.length → tokenizeChunk v ch = [unkToken ch]) ∧
    (encode v cfg a).tokens ≠ [] := by
  obtain ⟨n, hn⟩ : ∃ n, ch.length = n + 1 := by
    cases ch with
    | nil => exact absurd rfl h
    | cons nc rest => exact ⟨rest.length, by simp⟩
  refine ⟨?_, ?_, ?_⟩
  · unfold tokenizeChunk
    by_cases hb : maxInputCharsPerWord < ch.length
    · rw [if_pos hb]
      simp
    · rw [if_neg hb]
      rw [hn]
      rcases wpGo_cons v ch n 0 (by omega) with hnone | ⟨t, ts, hsome⟩
      · rw [hnone]
        simp
      · rw [hsome]
        simp
  · intro hb
    unfold tokenizeChunk
    rw [if_pos hb]
  · simp [encode]

/-- Witness for `c9_total_unk_fallback` at an oversized 101-character
chunk, where the maxInputCharsPerWord fallback fires. -/
theorem c9_total_unk_fallback_witness :
    bigChunk ≠ [] ∧
    (tokenizeChunk demoVocab bigChunk ≠ [] ∧
     (maxInputCharsPerWord < bigChunk.length →
       tokenizeChunk demoVocab bigChunk = [unkToken bigChunk]) ∧
     (encode demoVocab tokenizerCfg "hello").tokens ≠ []) :=
  ⟨by decide, c9_total_unk_fallback demoVocab tokenizerCfg "hello" bigChunk (by decide)⟩

theorem mapKeysReplicate {A : Type _} (g : A → List String) (K : List String)
    (l : List A) (hg : ∀ x, g x = K) :
    l.map g = List.replicate l.length K := by
  induction l with
  | nil => rfl
  | cons a l ih => simp [hg, ih, List.replicate_succ]

/-- C1 counterexample: the record the harness serializes for the first
offset-focused test case ("Simple word offsets", "hello") does not contain
an attention-mask field — the offset-test loop only serializes name, input,
tokens, ids and offsets. -/
theorem c1_counterexample :
    ¬ hasKey ((runHarness demoVocab).offsetTests.getD 0 []) "attention_mask" := by
  decide

/-- C1 amended: each serialized record contains exactly the field set of
its catalog: single and edge-case JSON records carry all seven fields
(name, input, tokens, ids, type_ids, attention_mask, offsets); pair records
carry input_a and input_b in place of input; offset-test records carry only
name, input, tokens, ids and offsets; and the generated source-level
declarations carry per-category subsets (single cases omit offsets, pair
cases omit attention mask and offsets, edge cases carry only
name/input/tokens/ids, offset cases only name/input/offsets). -/
theorem c1_amended_serialized_fields (v : List String) :
    ((runHarness v).singleEncoding.map recKeys
      = List.replicate SINGLE_ENCODING_TESTS.length
          ["name", "input", "tokens", "ids", "type_ids", "attention_mask", "offsets"]) ∧
    ((runHarness v).pairEncoding.map recKeys
      = List.replicate PAIR_ENCODING_TESTS.length
          ["name", "input_a", "input_b", "tokens", "ids", "type_ids", "attention_mask", "offsets"]) ∧
    ((runHarness v).edgeCases.map recKeys
      = List.replicate EDGE_CASE_TESTS.length
          ["name", "input", "tokens", "ids", "type_ids", "attention_mask", "offsets"]) ∧
    ((runHarness v).offsetTests.map recKeys
      = List.replicate OFFSET_TESTS.length
          ["name", "input", "tokens", "ids", "offsets"]) ∧
    ((dartCode (runHarness v)).1.map recKeys
      = List.replicate SINGLE_ENCODING_TESTS.length
          ["name", "input", "expectedTokens", "expectedIds", "expectedTypeIds",
           "expectedAttentionMask"]) ∧
    ((dartCode (runHarness v)).2.1.map recKeys
      = List.replicate PAIR_ENCODING_TESTS.length
          ["name", "inputA", "inputB", "expectedTokens", "expectedIds", "expectedTypeIds"]) ∧
    ((dartCode (runHarness v)).2.2.1.map recKeys
      = List.replicate EDGE_CASE_TESTS.length
          ["name", "input", "expectedTokens", "expectedIds"]) ∧
    ((dartCode (runHarness v)).2.2.2.map recKeys
      = List.replicate OFFSET_TESTS.length
          ["name", "input", "expectedOffsets"]) := by
  have hs : (runHarness v).singleEncoding
      = SINGLE_ENCODING_TESTS.map (fun p => singleRecord p.1 p.2 (encode v tokenizerCfg p.2)) := rfl
  have hp : (runHarness v).pairEncoding
      = PAIR_ENCODING_TESTS.map
          (fun p => pairRecord p.1 p.2.1 p.2.2 (encodePair v tokenizerCfg p.2.1 p.2.2)) := rfl
  have he : (runHarness v).edgeCases
      = EDGE_CASE_TESTS.map (fun p => edgeRecord p.1 p.2 (encode v tokenizerCfg p.2)) := rfl
  have ho : (runHarness v).offsetTests
      = OFFSET_TESTS.map (fun p => offsetRecord p.1 p.2 (encode v tokenizerCfg p.2)) := rfl
  have hd1 : (dartCode (runHarness v)).1 = (runHarness v).singleEncoding.map dartSingleCase := rfl
  have hd2 : (dartCode (runHarness v)).2.1 = (runHarness v).pairEncoding.map dartPairCase := rfl
  have hd3 : (dartCode (runHarness v)).2.2.1 = (runHarness v).edgeCases.map dartEdgeCase := rfl
  have hd4 : (dartCode (runHarness v)).2.2.2 = (runHarness v).offsetTests.map dartOffsetCase := rfl
  refine ⟨?_, ?_, ?_, ?_, ?_, ?_, ?_, ?_⟩
  · rw [hs, List.map_map]
    exact mapKeysReplicate _ _ _ (fun p => rfl)
  · rw [hp, List.map_map]
    exact mapKeysReplicate _ _ _ (fun p => rfl)
  · rw [he, List.map_map]
    exact mapKeysReplicate _ _ _ (fun p => rfl)
  · rw [ho, List.map_map]
    exact mapKeysReplicate _ _ _ (fun p => rfl)
  · rw [hd1, hs, List.map_map, List.map_map]
    exact mapKeysReplicate _ _ _ (fun p => rfl)
  · rw [hd2, hp, List.map_map, List.map_map]
    exact mapKeysReplicate _ _ _ (fun p => rfl)
  · rw [hd3, he, List.map_map, List.map_map]
    exact mapKeysReplicate _ _ _ (fun p => rfl)
  · rw [hd4, ho, List.map_map, List.map_map]
    exact mapKeysReplicate _ _ _ (fun p => rfl)

/-- C4: each of the four serialized results lists contains exactly one
record per catalog entry, and the records appear in the order of the
catalog entries (witnessed by the name field, which the record builders
take from the entry). -/
theorem c4_one_record_per_entry_in_order (v : List String) :
    ((runHarness v).singleEncoding.length = SINGLE_ENCODING_TESTS.length ∧
     (runHarness v).singleEncoding.map (fun r => jget r "name")
       = SINGLE_ENCODING_TESTS.map (fun p => JVal.s p.1)) ∧
    ((runHarness v).pairEncoding.length = PAIR_ENCODING_TESTS.length ∧
     (runHarness v).pairEncoding.map (fun r => jget r "name")
       = PAIR_ENCODING_TESTS.map (fun p => JVal.s p.1)) ∧
    ((runHarness v).edgeCases.length = EDGE_CASE_TESTS.length ∧
     (runHarness v).edgeCases.map (fun r => jget r "name")
       = EDGE_CASE_TESTS.map (fun p => JVal.s p.1)) ∧
    ((runHarness v).offsetTests.length = OFFSET_TESTS.length ∧
     (runHarness v).offsetTests.map (fun r => jget r "name")
       = OFFSET_TESTS.map (fun p => JVal.s p.1)) := by
  refine ⟨⟨?_, ?_⟩, ⟨?_, ?_⟩, ⟨?_, ?_⟩, ⟨?_, ?_⟩⟩ <;>
    simp [runHarness, List.map_map, Function.comp, jget_singleRecord_name,
      jget_pairRecord_name, jget_edgeRecord_name, jget_offsetRecord_name]

/-- C10: the script constructs at most one tokenizer instance (exactly one
iff the run completes), its configuration is lowercase=true with
strip_accents=true, and every record in every category of the results is
produced by encode or encodePair under that single configuration. -/
theorem c10_single_tokenizer_single_config (w : World) :
    tokenizerCfg = ⟨true, true⟩ ∧
    (scriptRun w).tokenizersConstructed ≤ 1 ∧
    ((scriptRun w).tokenizersConstructed = 1 ↔ (scriptRun w).exitCode = none) ∧
    ((scriptRun w).results = none ∨ (scriptRun w).results = some (runHarness w.vocab)) ∧
    (∀ v : List String,
      (runHarness v).singleEncoding
        = SINGLE_ENCODING_TESTS.map (fun p => singleRecord p.1 p.2 (encode v tokenizerCfg p.2)) ∧
      (runHarness v).pairEncoding
        = PAIR_ENCODING_TESTS.map
            (fun p => pairRecord p.1 p.2.1 p.2.2 (encodePair v tokenizerCfg p.2.1 p.2.2)) ∧
      (runHarness v).edgeCases
        = EDGE_CASE_TESTS.map (fun p => edgeRecord p.1 p.2 (encode v tokenizerCfg p.2)) ∧
      (runHarness v).offsetTests
        = OFFSET_TESTS.map (fun p => offsetRecord p.1 p.2 (encode v tokenizerCfg p.2))) := by
  refine ⟨rfl, ?_, ?_, ?_, fun v => ⟨rfl, rfl, rfl, rfl⟩⟩ <;>
    cases w with
    | mk ti ve vo => cases ti <;> cases ve <;> simp [scriptRun]
